import Mathlib

/-!
MiscManager (Dark Souls 3 open server): request dispatch and push fan-out.

A shallow embedding of `Source/Server/Server/GameService/GameManagers/Misc/MiscManager.cpp`.

* Every handler is a function from a `World` (statistics database plus the ordered
  trace of everything the handler did to the outside) to a result and a new `World`.
* The outcome of a stream write is not decided by this module. It is supplied by a
  `Transport`, an arbitrary function of the whole history so far; every theorem
  quantifies over all of them, so it covers every combination of send successes
  and failures.
* Sessions are shared pointers in the source. A session is identified here by its
  `Handle`, which also names the message stream the session exclusively owns.
-/

namespace DS3OS

/-! ## Data model -/

/-- Modelled from the spec: the enumeration `OnlineAreaId` is declared outside src.
The eight enumerators that MiscManager.cpp names are kept; every other enumerator is
`Other raw`. -/
inductive OnlineAreaId where
  | Archdragon_Peak_Start
  | Archdragon_Peak
  | Archdragon_Peak_Ancient_Wyvern
  | Archdragon_Peak_Dragon_kin_Mausoleum
  | Archdragon_Peak_Nameless_King_Bonfire
  | Archdragon_Peak_Second_Wyvern
  | Archdragon_Peak_Great_Belfry
  | Archdragon_Peak_Mausoleum_Lift
  | Other (raw : Nat)
  deriving DecidableEq, Repr

/-- Modelled from the spec: the enumeration `Frpg2ReliableUdpMessageType` is declared
outside src. The six tags that `OnMessageRecieved` compares against are kept; every
other tag of the closed set is `Other raw`. -/
inductive Frpg2ReliableUdpMessageType where
  | RequestNotifyRingBell
  | RequestSendMessageToPlayers
  | RequestMeasureUploadBandwidth
  | RequestMeasureDownloadBandwidth
  | RequestGetOnlineShopItemList
  | RequestBenchmarkThroughput
  | Other (raw : Nat)
  deriving DecidableEq, Repr

/-- Modelled from the spec: the push identifier enumeration is declared outside src.
`PushID_PushRequestNotifyRingBell` is the one enumerator the source names. -/
inductive PushID where
  | PushID_PushRequestNotifyRingBell
  | Other (raw : Nat)
  deriving DecidableEq, Repr

/-- Outcome of handling one message. -/
inductive MessageHandleResult where
  | Unhandled
  | Handled
  | Error
  deriving DecidableEq, Repr

/-- Modelled from the spec: the decoded body of an incoming message (the generated
protobuf classes are outside src). Only the fields the handlers read are kept: a
ring-bell request has an area identifier and a data blob, a relay request has a list
of player identifiers and one encoded message. Bytes are natural numbers. -/
inductive Protobuf where
  | RequestNotifyRingBell (online_area_id : Nat) (data : List Nat)
  | RequestSendMessageToPlayers (player_ids : List Nat) (message : List Nat)
  | RequestMeasureUploadBandwidth
  | RequestMeasureDownloadBandwidth
  | RequestGetOnlineShopItemList
  | RequestBenchmarkThroughput
  | Other
  deriving DecidableEq, Repr

/-- Field `online_area_id` of the body seen as a `RequestNotifyRingBell` (the cast on
line 69). A body of another type reads as the protobuf default. -/
def Protobuf.online_area_id : Protobuf → Nat
  | .RequestNotifyRingBell a _ => a
  | _ => 0

/-- Field `data` of the body seen as a `RequestNotifyRingBell`. -/
def Protobuf.data : Protobuf → List Nat
  | .RequestNotifyRingBell _ d => d
  | _ => []

/-- Repeated field `player_ids` of the body seen as a `RequestSendMessageToPlayers`
(the cast on line 117). -/
def Protobuf.player_ids : Protobuf → List Nat
  | .RequestSendMessageToPlayers ids _ => ids
  | _ => []

/-- Field `message` of the body seen as a `RequestSendMessageToPlayers`. -/
def Protobuf.message : Protobuf → List Nat
  | .RequestSendMessageToPlayers _ m => m
  | _ => []

/-- Modelled from the spec: the message header (declared outside src) holds the
declared request type and the correlation data used to pair a response. -/
structure Frpg2ReliableUdpMessageHeader where
  msg_type : Frpg2ReliableUdpMessageType
  msg_index : Nat
  deriving DecidableEq, Repr

/-- Modelled from the spec: an incoming message is a header plus a decoded body. -/
structure Frpg2ReliableUdpMessage where
  Header : Frpg2ReliableUdpMessageHeader
  Protobuf : Protobuf
  deriving DecidableEq, Repr

/-- Modelled from the spec: the player state (declared outside src) has a numeric
player identifier and a current area. -/
structure PlayerState where
  PlayerId : Nat
  CurrentArea : OnlineAreaId
  deriving DecidableEq, Repr

/-- Modelled from the spec: a connected session (declared outside src). `Handle` is the
identity of the session object and of the message stream it owns. -/
structure GameClient where
  Handle : Nat
  Name : String
  PlayerState : PlayerState
  deriving DecidableEq, Repr

/-- The push message built on lines 89 to 93. -/
structure PushRequestNotifyRingBell where
  push_message_id : PushID
  player_id : Nat
  online_area_id : Nat
  data : List Nat
  deriving DecidableEq, Repr

/-- Messages this module writes to a stream: the ring push and the six empty
responses. -/
inductive OutgoingProtobuf where
  | PushRequestNotifyRingBell (m : PushRequestNotifyRingBell)
  | RequestNotifyRingBellResponse
  | RequestSendMessageToPlayersResponse
  | RequestMeasureUploadBandwidthResponse
  | RequestMeasureDownloadBandwidthResponse
  | RequestGetOnlineShopItemListResponse
  | RequestBenchmarkThroughputResponse
  deriving DecidableEq, Repr

/-- The warnings of MiscManager.cpp, one constructor per format string, with the
arguments of the format. -/
inductive WarningText where
  /-- Line 97: failed to send push message for bell ring. -/
  | FailedPushBellRing (client : String) (other : String)
  /-- Line 131: message addressed to a player that is not connected. -/
  | TargetClientMissing (client : String) (PlayerId : Nat)
  /-- Line 137: failed to send raw protobuf. -/
  | FailedRawProtobuf (client : String) (target : String)
  /-- Lines 108, 147, 164, 181, 198, 215: disconnecting, the response named could not
  be sent. -/
  | DisconnectingFailedResponse (client : String) (response : OutgoingProtobuf)
  deriving DecidableEq, Repr

/-- One observable action of a handler, in the order performed. -/
inductive Event where
  /-- Call `MessageStream->Send(&Push)` on the stream of session `stream`. -/
  | Send (stream : Nat) (msg : OutgoingProtobuf) (ok : Bool)
  /-- Call `MessageStream->Send(&Response, &Message)`: a response correlated with
  `request`. -/
  | SendResponse (stream : Nat) (msg : OutgoingProtobuf)
      (request : Frpg2ReliableUdpMessage) (ok : Bool)
  /-- Call `MessageStream->SendRawProtobuf(bytes)`. -/
  | SendRawProtobuf (stream : Nat) (bytes : List Nat) (ok : Bool)
  /-- Call `Warning(...)`. -/
  | Warning (text : WarningText)
  /-- A failed `Ensure(...)`. -/
  | EnsureFailed
  deriving DecidableEq, Repr

/-- Modelled from the spec: the statistics sink (`ServerDatabase` is outside src)
accumulates named counters, globally and per player identifier, additively and
without an upper bound. -/
structure ServerDatabase where
  GlobalStatistics : String → Int
  PlayerStatistics : String → Nat → Int

/-- Everything a handler can change: the statistics and the trace of its actions. -/
structure World where
  Database : ServerDatabase
  Trace : List Event

/-- The transport layer: decides, from the history so far, whether the next stream
write succeeds. -/
abbrev Transport := List Event → Bool

/-- Modelled from the spec: the session registry (`GameService` is outside src) holds
the live sessions. -/
structure GameService where
  Clients : List GameClient
  deriving Repr

/-- Modelled from the spec: `FindSessionsMatching(predicate) -> list<Session>`, the
registered sessions that satisfy the predicate, in registry order. -/
def GameService.FindClients (G : GameService) (Predicate : GameClient → Bool) :
    List GameClient :=
  G.Clients.filter Predicate

/-- Modelled from the spec: `FindSessionByPlayerId(id) -> optional<Session>`, the
registered session whose player identifier is `PlayerId`, if any. -/
def GameService.FindClientByPlayerId (G : GameService) (PlayerId : Nat) :
    Option GameClient :=
  G.Clients.find? (fun c => c.PlayerState.PlayerId == PlayerId)

/-- Modelled from the spec: `AddGlobal(name, delta)` of the statistics sink. -/
def ServerDatabase.AddGlobalStatistic (D : ServerDatabase) (Key : String) (Delta : Int) :
    ServerDatabase :=
  { D with GlobalStatistics := fun k =>
      if k = Key then D.GlobalStatistics k + Delta else D.GlobalStatistics k }

/-- Modelled from the spec: `AddForPlayer(name, playerId, delta)` of the statistics
sink. -/
def ServerDatabase.AddPlayerStatistic (D : ServerDatabase) (Key : String) (PlayerId : Nat)
    (Delta : Int) : ServerDatabase :=
  { D with PlayerStatistics := fun k p =>
      if k = Key ∧ p = PlayerId then D.PlayerStatistics k p + Delta
      else D.PlayerStatistics k p }

/-! ## Primitive actions -/

/-- Write a push message to a stream; the transport decides the outcome. -/
def MessageStream.Send (T : Transport) (stream : Nat) (msg : OutgoingProtobuf) (w : World) :
    Bool × World :=
  (T w.Trace, { w with Trace := w.Trace ++ [Event.Send stream msg (T w.Trace)] })

/-- Write a response correlated with `request` to a stream. -/
def MessageStream.SendResponse (T : Transport) (stream : Nat) (msg : OutgoingProtobuf)
    (request : Frpg2ReliableUdpMessage) (w : World) : Bool × World :=
  (T w.Trace,
    { w with Trace := w.Trace ++ [Event.SendResponse stream msg request (T w.Trace)] })

/-- Write raw bytes to a stream. -/
def MessageStream.SendRawProtobuf (T : Transport) (stream : Nat) (bytes : List Nat)
    (w : World) : Bool × World :=
  (T w.Trace, { w with Trace := w.Trace ++ [Event.SendRawProtobuf stream bytes (T w.Trace)] })

/-- Log a warning. -/
def Warning (text : WarningText) (w : World) : World :=
  { w with Trace := w.Trace ++ [Event.Warning text] }

/-- Modelled from the spec: `Ensure` is defined outside src. A failed check flags the
unexpected code path and is not fatal: the handler goes on. -/
def Ensure (expr : Bool) (w : World) : World :=
  if expr then w else { w with Trace := w.Trace ++ [Event.EnsureFailed] }

/-! ## Handlers -/

/-- Lines 72 to 81: the locations a user should be in to receive the bell push. -/
def NotifyLocations : List OnlineAreaId :=
  [ OnlineAreaId.Archdragon_Peak_Start,
    OnlineAreaId.Archdragon_Peak,
    OnlineAreaId.Archdragon_Peak_Ancient_Wyvern,
    OnlineAreaId.Archdragon_Peak_Dragon_kin_Mausoleum,
    OnlineAreaId.Archdragon_Peak_Nameless_King_Bonfire,
    OnlineAreaId.Archdragon_Peak_Second_Wyvern,
    OnlineAreaId.Archdragon_Peak_Great_Belfry,
    OnlineAreaId.Archdragon_Peak_Mausoleum_Lift ]

/-- Line 84: the predicate handed to `FindClients`. -/
def InNotifyLocations (OtherClient : GameClient) : Bool :=
  decide (NotifyLocations.count OtherClient.PlayerState.CurrentArea > 0)

/-- Lines 89 to 93: the push message of one ring request. -/
def BuildPushMessage (Client : GameClient) (Message : Frpg2ReliableUdpMessage) :
    PushRequestNotifyRingBell :=
  { push_message_id := PushID.PushID_PushRequestNotifyRingBell
    player_id := Client.PlayerState.PlayerId
    online_area_id := Message.Protobuf.online_area_id
    data := Message.Protobuf.data.take Message.Protobuf.data.length }

/-- Lines 87 to 99: the loop over the potential targets. -/
def NotifyRingBell_PushLoop (T : Transport) (Client : GameClient)
    (Message : Frpg2ReliableUdpMessage) : List GameClient → World → World
  | [], w => w
  | OtherClient :: rest, w =>
    let r := MessageStream.Send T OtherClient.Handle
      (OutgoingProtobuf.PushRequestNotifyRingBell (BuildPushMessage Client Message)) w
    let w1 :=
      if !r.1 then Warning (WarningText.FailedPushBellRing Client.Name OtherClient.Name) r.2
      else r.2
    NotifyRingBell_PushLoop T Client Message rest w1

/-- Lines 64 to 113. -/
def Handle_RequestNotifyRingBell (T : Transport) (G : GameService) (Client : GameClient)
    (Message : Frpg2ReliableUdpMessage) (w : World) : MessageHandleResult × World :=
  let Player := Client.PlayerState
  let PotentialTargets := G.FindClients InNotifyLocations
  let w1 := NotifyRingBell_PushLoop T Client Message PotentialTargets w
  let TypeStatisticKey := "Bell/TotalBellRings"
  let w2 : World := { w1 with Database := w1.Database.AddGlobalStatistic TypeStatisticKey 1 }
  let w3 : World :=
    { w2 with Database := w2.Database.AddPlayerStatistic TypeStatisticKey Player.PlayerId 1 }
  let r := MessageStream.SendResponse T Client.Handle
    OutgoingProtobuf.RequestNotifyRingBellResponse Message w3
  if !r.1 then
    (MessageHandleResult.Error,
      Warning (WarningText.DisconnectingFailedResponse Client.Name
        OutgoingProtobuf.RequestNotifyRingBellResponse) r.2)
  else
    (MessageHandleResult.Handled, r.2)

/-- Lines 124 to 140: the loop over `player_ids`. -/
def SendMessageToPlayers_Loop (T : Transport) (G : GameService) (Client : GameClient)
    (MessageData : List Nat) : List Nat → World → World
  | [], w => w
  | PlayerId :: rest, w =>
    let w1 :=
      match G.FindClientByPlayerId PlayerId with
      | none => Warning (WarningText.TargetClientMissing Client.Name PlayerId) w
      | some TargetClient =>
        let r := MessageStream.SendRawProtobuf T TargetClient.Handle MessageData w
        if !r.1 then
          Warning (WarningText.FailedRawProtobuf Client.Name TargetClient.Name) r.2
        else r.2
    SendMessageToPlayers_Loop T G Client MessageData rest w1

/-- Lines 115 to 152. -/
def Handle_RequestSendMessageToPlayers (T : Transport) (G : GameService)
    (Client : GameClient) (Message : Frpg2ReliableUdpMessage) (w : World) :
    MessageHandleResult × World :=
  let MessageData := Message.Protobuf.message.take Message.Protobuf.message.length
  let w1 := SendMessageToPlayers_Loop T G Client MessageData Message.Protobuf.player_ids w
  let r := MessageStream.SendResponse T Client.Handle
    OutgoingProtobuf.RequestSendMessageToPlayersResponse Message w1
  if !r.1 then
    (MessageHandleResult.Error,
      Warning (WarningText.DisconnectingFailedResponse Client.Name
        OutgoingProtobuf.RequestSendMessageToPlayersResponse) r.2)
  else
    (MessageHandleResult.Handled, r.2)

/-- Lines 154 to 169. -/
def Handle_RequestMeasureUploadBandwidth (T : Transport) (_G : GameService)
    (Client : GameClient) (Message : Frpg2ReliableUdpMessage) (w : World) :
    MessageHandleResult × World :=
  let w1 := Ensure false w
  let r := MessageStream.SendResponse T Client.Handle
    OutgoingProtobuf.RequestMeasureUploadBandwidthResponse Message w1
  if !r.1 then
    (MessageHandleResult.Error,
      Warning (WarningText.DisconnectingFailedResponse Client.Name
        OutgoingProtobuf.RequestMeasureUploadBandwidthResponse) r.2)
  else
    (MessageHandleResult.Handled, r.2)

/-- Lines 171 to 186. -/
def Handle_RequestMeasureDownloadBandwidth (T : Transport) (_G : GameService)
    (Client : GameClient) (Message : Frpg2ReliableUdpMessage) (w : World) :
    MessageHandleResult × World :=
  let w1 := Ensure false w
  let r := MessageStream.SendResponse T Client.Handle
    OutgoingProtobuf.RequestMeasureDownloadBandwidthResponse Message w1
  if !r.1 then
    (MessageHandleResult.Error,
      Warning (WarningText.DisconnectingFailedResponse Client.Name
        OutgoingProtobuf.RequestMeasureDownloadBandwidthResponse) r.2)
  else
    (MessageHandleResult.Handled, r.2)

/-- Lines 188 to 203. -/
def Handle_RequestGetOnlineShopItemList (T : Transport) (_G : GameService)
    (Client : GameClient) (Message : Frpg2ReliableUdpMessage) (w : World) :
    MessageHandleResult × World :=
  let w1 := Ensure false w
  let r := MessageStream.SendResponse T Client.Handle
    OutgoingProtobuf.RequestGetOnlineShopItemListResponse Message w1
  if !r.1 then
    (MessageHandleResult.Error,
      Warning (WarningText.DisconnectingFailedResponse Client.Name
        OutgoingProtobuf.RequestGetOnlineShopItemListResponse) r.2)
  else
    (MessageHandleResult.Handled, r.2)

/-- Lines 205 to 220. -/
def Handle_RequestBenchmarkThroughput (T : Transport) (_G : GameService)
    (Client : GameClient) (Message : Frpg2ReliableUdpMessage) (w : World) :
    MessageHandleResult × World :=
  let w1 := Ensure false w
  let r := MessageStream.SendResponse T Client.Handle
    OutgoingProtobuf.RequestBenchmarkThroughputResponse Message w1
  if !r.1 then
    (MessageHandleResult.Error,
      Warning (WarningText.DisconnectingFailedResponse Client.Name
        OutgoingProtobuf.RequestBenchmarkThroughputResponse) r.2)
  else
    (MessageHandleResult.Handled, r.2)

/-- Lines 30 to 58: the dispatcher. -/
def OnMessageRecieved (T : Transport) (G : GameService) (Client : GameClient)
    (Message : Frpg2ReliableUdpMessage) (w : World) : MessageHandleResult × World :=
  if Message.Header.msg_type = Frpg2ReliableUdpMessageType.RequestNotifyRingBell then
    Handle_RequestNotifyRingBell T G Client Message w
  else if Message.Header.msg_type
      = Frpg2ReliableUdpMessageType.RequestSendMessageToPlayers then
    Handle_RequestSendMessageToPlayers T G Client Message w
  else if Message.Header.msg_type
      = Frpg2ReliableUdpMessageType.RequestMeasureUploadBandwidth then
    Handle_RequestMeasureUploadBandwidth T G Client Message w
  else if Message.Header.msg_type
      = Frpg2ReliableUdpMessageType.RequestMeasureDownloadBandwidth then
    Handle_RequestMeasureDownloadBandwidth T G Client Message w
  else if Message.Header.msg_type
      = Frpg2ReliableUdpMessageType.RequestGetOnlineShopItemList then
    Handle_RequestGetOnlineShopItemList T G Client Message w
  else if Message.Header.msg_type
      = Frpg2ReliableUdpMessageType.RequestBenchmarkThroughput then
    Handle_RequestBenchmarkThroughput T G Client Message w
  else
    (MessageHandleResult.Unhandled, w)

/-! ## Observations on a trace -/

/-- The events a call appended to the trace: `w0` is the world before the call, `w1`
the world after. -/
def Emitted (w0 w1 : World) : List Event :=
  w1.Trace.drop w0.Trace.length

/-- The push send of an event, as the stream written to and the message. -/
def Event.push? : Event → Option (Nat × OutgoingProtobuf)
  | .Send stream msg _ => some (stream, msg)
  | _ => none

/-- The push sends attempted, in order. -/
def Pushes (es : List Event) : List (Nat × OutgoingProtobuf) :=
  es.filterMap Event.push?

/-- The streams on which a push send was attempted, in order. -/
def PushStreams (es : List Event) : List Nat :=
  (Pushes es).map Prod.fst

/-- Is the event a correlated response send? -/
def Event.isResponse : Event → Bool
  | .SendResponse _ _ _ _ => true
  | _ => false

/-- The correlated response sends attempted, in order. -/
def Responses (es : List Event) : List Event :=
  es.filter Event.isResponse

/-- The raw forward of an event, as the stream written to and the bytes. -/
def Event.rawForward? : Event → Option (Nat × List Nat)
  | .SendRawProtobuf stream bytes _ => some (stream, bytes)
  | _ => none

/-- The raw forwards attempted, in order. -/
def RawForwards (es : List Event) : List (Nat × List Nat) :=
  es.filterMap Event.rawForward?

/-- Is the event a raw forward that failed? -/
def Event.isFailedForward : Event → Bool
  | .SendRawProtobuf _ _ ok => !ok
  | _ => false

/-- The warning of an event. -/
def Event.warning? : Event → Option WarningText
  | .Warning text => some text
  | _ => none

/-- The warnings logged, in order. -/
def Warnings (es : List Event) : List WarningText :=
  es.filterMap Event.warning?

/-- Is the event a write to some stream (push, response or raw forward)? -/
def Event.isStreamWrite : Event → Bool
  | .Send _ _ _ => true
  | .SendResponse _ _ _ _ => true
  | .SendRawProtobuf _ _ _ => true
  | _ => false

/-- The stream writes attempted, in order. -/
def StreamWrites (es : List Event) : List Event :=
  es.filter Event.isStreamWrite

/-! ## Concrete inputs -/

/-- A world with no history and every counter at zero. -/
def World0 : World :=
  { Database := { GlobalStatistics := fun _ => 0, PlayerStatistics := fun _ _ => 0 }
    Trace := [] }

/-- Session S1, player 7, standing in Archdragon Peak. -/
def S1 : GameClient :=
  { Handle := 1, Name := "S1", PlayerState := { PlayerId := 7, CurrentArea := .Archdragon_Peak } }

/-- Session S2, player 9, standing outside the allow-list. -/
def S2 : GameClient :=
  { Handle := 2, Name := "S2", PlayerState := { PlayerId := 9, CurrentArea := .Other 0 } }

/-- A registry holding S1 and S2. -/
def Registry12 : GameService := { Clients := [S1, S2] }

/-- A ring request declaring area 5 with the one byte payload 0xAB. -/
def RingAB : Frpg2ReliableUdpMessage :=
  { Header := { msg_type := .RequestNotifyRingBell, msg_index := 3 }
    Protobuf := .RequestNotifyRingBell 5 [0xAB] }

/-- A transport on which every write succeeds. -/
def AllSucceed : Transport := fun _ => true

/-- A transport on which every write fails. -/
def AllFail : Transport := fun _ => false

/-- The player identifier of a missing-target warning. -/
def WarningText.missingTarget? : WarningText → Option Nat
  | .TargetClientMissing _ PlayerId => some PlayerId
  | _ => none

/-- Is the warning the one logged for a failed raw forward? -/
def WarningText.isFailedForward : WarningText → Bool
  | .FailedRawProtobuf _ _ => true
  | _ => false

/-- Does the target entry name no connected player? -/
def IsMissingTarget (G : GameService) (PlayerId : Nat) : Bool :=
  (G.FindClientByPlayerId PlayerId).isNone

/-- The number of raw forwards that failed. -/
def FailedForwards (es : List Event) : Nat :=
  (es.filter Event.isFailedForward).length

/-- The shape of a handler of this module. -/
abbrev Handler :=
  Transport → GameService → GameClient → Frpg2ReliableUdpMessage → World →
    MessageHandleResult × World

/-- The policy of section 4.4 for one unsupported request type: whatever the transport
does, the handler `H` returns, writes to a stream exactly once (the empty response `R`,
on the stream of the requester, correlated with the request), pushes and forwards
nothing, leaves the statistics alone, and reports `Error` exactly when that one write
failed and `Handled` exactly when it succeeded. -/
def UnsupportedRequestContract (H : Handler) (R : OutgoingProtobuf) : Prop :=
  ∀ (T : Transport) (G : GameService) (Client : GameClient)
    (Message : Frpg2ReliableUdpMessage) (w : World),
    ∃ ok : Bool,
      StreamWrites (Emitted w (H T G Client Message w).2) =
        [Event.SendResponse Client.Handle R Message ok] ∧
      Pushes (Emitted w (H T G Client Message w).2) = [] ∧
      RawForwards (Emitted w (H T G Client Message w).2) = [] ∧
      (H T G Client Message w).2.Database = w.Database ∧
      ((H T G Client Message w).1 = MessageHandleResult.Error ↔ ok = false) ∧
      ((H T G Client Message w).1 = MessageHandleResult.Handled ↔ ok = true)

/-- The handler table in the words of section 4.1: the handler registered for a tag,
if any. -/
def RegisteredHandler : Frpg2ReliableUdpMessageType → Option Handler
  | .RequestNotifyRingBell => some Handle_RequestNotifyRingBell
  | .RequestSendMessageToPlayers => some Handle_RequestSendMessageToPlayers
  | .RequestMeasureUploadBandwidth => some Handle_RequestMeasureUploadBandwidth
  | .RequestMeasureDownloadBandwidth => some Handle_RequestMeasureDownloadBandwidth
  | .RequestGetOnlineShopItemList => some Handle_RequestGetOnlineShopItemList
  | .RequestBenchmarkThroughput => some Handle_RequestBenchmarkThroughput
  | .Other _ => none

/-- The dispatcher in the words of section 4.1: select the handler by exact match on
the tag; without one return `Unhandled` and do nothing, with one return its result
unchanged. -/
def Dispatch (T : Transport) (G : GameService) (Client : GameClient)
    (Message : Frpg2ReliableUdpMessage) (w : World) : MessageHandleResult × World :=
  match RegisteredHandler Message.Header.msg_type with
  | none => (MessageHandleResult.Unhandled, w)
  | some H => H T G Client Message w

/-- A relay request to players 7 and 8 carrying three bytes. -/
def Relay78 : Frpg2ReliableUdpMessage :=
  { Header := { msg_type := .RequestSendMessageToPlayers, msg_index := 4 }
    Protobuf := .RequestSendMessageToPlayers [7, 8] [1, 2, 3] }

/-- A relay request to player 8 alone. -/
def Relay8 : Frpg2ReliableUdpMessage :=
  { Header := { msg_type := .RequestSendMessageToPlayers, msg_index := 5 }
    Protobuf := .RequestSendMessageToPlayers [8] [1, 2, 3] }

/-- A message of a type this module does not own. -/
def Foreign : Frpg2ReliableUdpMessage :=
  { Header := { msg_type := .Other 42, msg_index := 6 }, Protobuf := .Other }


/-! ## Helper lemmas -/

theorem inNotifyLocations_iff (c : GameClient) :
    InNotifyLocations c = true ↔ c.PlayerState.CurrentArea ∈ NotifyLocations := by
  simp [InNotifyLocations, List.count_pos_iff]

theorem emitted_of_trace {w0 w1 : World} {es : List Event}
    (h : w1.Trace = w0.Trace ++ es) : Emitted w0 w1 = es := by
  simp [Emitted, h]

/-- The push loop appends, per target and in order, one push send (followed by a
warning when it failed); it writes no response, forwards nothing and leaves the
statistics alone. -/
theorem pushLoop_spec (T : Transport) (Client : GameClient)
    (Message : Frpg2ReliableUdpMessage) :
    ∀ (ts : List GameClient) (w : World), ∃ es : List Event,
      (NotifyRingBell_PushLoop T Client Message ts w).Trace = w.Trace ++ es ∧
      (NotifyRingBell_PushLoop T Client Message ts w).Database = w.Database ∧
      Pushes es = ts.map (fun c =>
        (c.Handle, OutgoingProtobuf.PushRequestNotifyRingBell
          (BuildPushMessage Client Message))) ∧
      Responses es = [] ∧ RawForwards es = [] := by
  intro ts
  induction ts with
  | nil => intro w; exact ⟨[], by simp [NotifyRingBell_PushLoop, Pushes, Responses, RawForwards]⟩
  | cons c rest ih =>
    intro w
    cases hT : T w.Trace with
    | true =>
      obtain ⟨es, h1, h2, h3, h4, h5⟩ := ih
        { w with Trace := w.Trace ++ [Event.Send c.Handle
          (OutgoingProtobuf.PushRequestNotifyRingBell (BuildPushMessage Client Message)) true] }
      refine ⟨Event.Send c.Handle
        (OutgoingProtobuf.PushRequestNotifyRingBell (BuildPushMessage Client Message)) true
          :: es, ?_, ?_, ?_, ?_, ?_⟩
      · simp [NotifyRingBell_PushLoop, MessageStream.Send, hT, h1]
      · simp [NotifyRingBell_PushLoop, MessageStream.Send, hT, h2]
      · simpa [Pushes, Event.push?] using h3
      · simpa [Responses, Event.isResponse] using h4
      · simpa [RawForwards, Event.rawForward?] using h5
    | false =>
      obtain ⟨es, h1, h2, h3, h4, h5⟩ := ih
        { w with Trace := (w.Trace ++ [Event.Send c.Handle
          (OutgoingProtobuf.PushRequestNotifyRingBell (BuildPushMessage Client Message)) false])
          ++ [Event.Warning (WarningText.FailedPushBellRing Client.Name c.Name)] }
      refine ⟨Event.Send c.Handle
        (OutgoingProtobuf.PushRequestNotifyRingBell (BuildPushMessage Client Message)) false
          :: Event.Warning (WarningText.FailedPushBellRing Client.Name c.Name) :: es,
          ?_, ?_, ?_, ?_, ?_⟩
      · simp only [List.append_assoc, List.singleton_append] at h1
        simp [NotifyRingBell_PushLoop, MessageStream.Send, Warning, hT, h1]
      · simp only [List.append_assoc, List.singleton_append] at h2
        simp [NotifyRingBell_PushLoop, MessageStream.Send, Warning, hT, h2]
      · simpa [Pushes, Event.push?] using h3
      · simpa [Responses, Event.isResponse] using h4
      · simpa [RawForwards, Event.rawForward?] using h5

/-- What one ring-bell call appends to the trace and does to the statistics. -/
theorem ringBell_spec (T : Transport) (G : GameService) (Client : GameClient)
    (Message : Frpg2ReliableUdpMessage) (w : World) :
    ∃ (es : List Event) (ok : Bool),
      Emitted w (Handle_RequestNotifyRingBell T G Client Message w).2 =
        es ++ Event.SendResponse Client.Handle
          OutgoingProtobuf.RequestNotifyRingBellResponse Message ok ::
          (if ok then [] else [Event.Warning (WarningText.DisconnectingFailedResponse
            Client.Name OutgoingProtobuf.RequestNotifyRingBellResponse)]) ∧
      (Handle_RequestNotifyRingBell T G Client Message w).1 =
        (if ok then MessageHandleResult.Handled else MessageHandleResult.Error) ∧
      (Handle_RequestNotifyRingBell T G Client Message w).2.Database =
        (w.Database.AddGlobalStatistic "Bell/TotalBellRings" 1).AddPlayerStatistic
          "Bell/TotalBellRings" Client.PlayerState.PlayerId 1 ∧
      Pushes es = (G.Clients.filter InNotifyLocations).map (fun c =>
        (c.Handle, OutgoingProtobuf.PushRequestNotifyRingBell
          (BuildPushMessage Client Message))) ∧
      Responses es = [] ∧ RawForwards es = [] := by
  obtain ⟨es, h1, h2, h3, h4, h5⟩ :=
    pushLoop_spec T Client Message (G.Clients.filter InNotifyLocations) w
  refine ⟨es, T (w.Trace ++ es), ?_, ?_, ?_, h3, h4, h5⟩
  · apply emitted_of_trace
    cases hT : T (w.Trace ++ es) <;>
      simp [Handle_RequestNotifyRingBell, GameService.FindClients,
        MessageStream.SendResponse, Warning, h1, hT]
  · cases hT : T (w.Trace ++ es) <;>
      simp [Handle_RequestNotifyRingBell, GameService.FindClients,
        MessageStream.SendResponse, Warning, h1, hT]
  · cases hT : T (w.Trace ++ es) <;>
      simp [Handle_RequestNotifyRingBell, GameService.FindClients,
        MessageStream.SendResponse, Warning, h1, h2, hT]

theorem pushes_append (a b : List Event) : Pushes (a ++ b) = Pushes a ++ Pushes b := by
  simp [Pushes]

theorem responses_append (a b : List Event) :
    Responses (a ++ b) = Responses a ++ Responses b := by
  simp [Responses]

/-- The push sends of a whole ring-bell call are those of its loop. -/
theorem ringBell_pushes (T : Transport) (G : GameService) (Client : GameClient)
    (Message : Frpg2ReliableUdpMessage) (w : World) :
    Pushes (Emitted w (Handle_RequestNotifyRingBell T G Client Message w).2) =
      (G.Clients.filter InNotifyLocations).map (fun c =>
        (c.Handle, OutgoingProtobuf.PushRequestNotifyRingBell
          (BuildPushMessage Client Message))) := by
  obtain ⟨es, ok, h1, -, -, h3, -, -⟩ := ringBell_spec T G Client Message w
  rw [h1, pushes_append, h3]
  cases ok <;> simp [Pushes, Event.push?]

theorem ringBell_pushStreams (T : Transport) (G : GameService) (Client : GameClient)
    (Message : Frpg2ReliableUdpMessage) (w : World) :
    PushStreams (Emitted w (Handle_RequestNotifyRingBell T G Client Message w).2) =
      (G.Clients.filter InNotifyLocations).map GameClient.Handle := by
  simp [PushStreams, ringBell_pushes, Function.comp_def]

theorem count_handle_filter_of_pos (cs : List GameClient) (p : GameClient → Bool)
    (hset : (cs.map GameClient.Handle).Nodup) (c : GameClient) (hc : c ∈ cs)
    (hp : p c = true) : ((cs.filter p).map GameClient.Handle).count c.Handle = 1 := by
  apply List.count_eq_one_of_mem
  · exact List.Nodup.sublist ((List.filter_sublist cs).map _) hset
  · exact List.mem_map_of_mem _ (List.mem_filter.mpr ⟨hc, hp⟩)

theorem handle_not_mem_filter_of_neg (cs : List GameClient) (p : GameClient → Bool)
    (hset : (cs.map GameClient.Handle).Nodup) (c : GameClient) (hc : c ∈ cs)
    (hp : ¬ p c = true) : c.Handle ∉ (cs.filter p).map GameClient.Handle := by
  intro hmem
  obtain ⟨d, hd, hh⟩ := List.mem_map.mp hmem
  obtain ⟨hd1, hd2⟩ := List.mem_filter.mp hd
  have : d = c := List.inj_on_of_nodup_map hset hd1 hc hh
  exact hp (this ▸ hd2)

theorem rawForwards_append (a b : List Event) :
    RawForwards (a ++ b) = RawForwards a ++ RawForwards b := by
  simp [RawForwards]

theorem warnings_append (a b : List Event) :
    Warnings (a ++ b) = Warnings a ++ Warnings b := by
  simp [Warnings]

theorem failedForwards_append (a b : List Event) :
    FailedForwards (a ++ b) = FailedForwards a + FailedForwards b := by
  simp [FailedForwards]

theorem warnings_missing (name : String) (ids : List Nat) :
    Warnings (ids.map (fun id => Event.Warning (WarningText.TargetClientMissing name id))) =
      ids.map (WarningText.TargetClientMissing name) := by
  induction ids with
  | nil => rfl
  | cons a t ih =>
    simp only [Warnings] at ih
    simp [Warnings, Event.warning?, ih]

/-- The relay loop appends, per target entry and in order, either a missing-target
warning or one raw forward (followed by a warning when it failed). -/
theorem relayLoop_spec (T : Transport) (G : GameService) (Client : GameClient)
    (MessageData : List Nat) :
    ∀ (ids : List Nat) (w : World), ∃ es : List Event,
      (SendMessageToPlayers_Loop T G Client MessageData ids w).Trace = w.Trace ++ es ∧
      (SendMessageToPlayers_Loop T G Client MessageData ids w).Database = w.Database ∧
      RawForwards es =
        (ids.filterMap G.FindClientByPlayerId).map (fun t => (t.Handle, MessageData)) ∧
      Responses es = [] ∧ Pushes es = [] ∧
      (Warnings es).filterMap WarningText.missingTarget? = ids.filter (IsMissingTarget G) ∧
      ((Warnings es).filter WarningText.isFailedForward).length = FailedForwards es ∧
      (Warnings es).length = (ids.filter (IsMissingTarget G)).length + FailedForwards es ∧
      (ids.filterMap G.FindClientByPlayerId = [] →
        es = ids.map (fun id =>
          Event.Warning (WarningText.TargetClientMissing Client.Name id))) := by
  intro ids
  induction ids with
  | nil =>
    intro w
    exact ⟨[], by simp [SendMessageToPlayers_Loop, Pushes, Responses, RawForwards, Warnings,
      FailedForwards]⟩
  | cons id rest ih =>
    intro w
    cases hF : G.FindClientByPlayerId id with
    | none =>
      obtain ⟨es, h1, h2, h3, h4, h5, h6, h7, h8, h9⟩ := ih
        { w with Trace := w.Trace ++
          [Event.Warning (WarningText.TargetClientMissing Client.Name id)] }
      refine ⟨Event.Warning (WarningText.TargetClientMissing Client.Name id) :: es,
        ?_, ?_, ?_, ?_, ?_, ?_, ?_, ?_, ?_⟩
      · simp only [List.append_assoc, List.singleton_append] at h1
        simp [SendMessageToPlayers_Loop, Warning, hF, h1]
      · simp [SendMessageToPlayers_Loop, Warning, hF, h2]
      · simpa [RawForwards, Event.rawForward?, hF] using h3
      · simpa [Responses, Event.isResponse] using h4
      · simpa [Pushes, Event.push?] using h5
      · simp only [Warnings] at h6
        simp [Warnings, Event.warning?, WarningText.missingTarget?, IsMissingTarget, hF, h6]
      · simp only [Warnings, FailedForwards] at h7
        simp [Warnings, Event.warning?, WarningText.isFailedForward, FailedForwards,
          Event.isFailedForward, h7]
      · simp only [Warnings, FailedForwards] at h8
        simp [Warnings, Event.warning?, FailedForwards, Event.isFailedForward,
          IsMissingTarget, hF, h8]
        omega
      · intro h0
        rw [List.filterMap_cons, hF] at h0
        simp [h9 h0]
    | some t =>
      cases hT : T w.Trace with
      | true =>
        obtain ⟨es, h1, h2, h3, h4, h5, h6, h7, h8, h9⟩ := ih
          { w with Trace := w.Trace ++ [Event.SendRawProtobuf t.Handle MessageData true] }
        refine ⟨Event.SendRawProtobuf t.Handle MessageData true :: es,
          ?_, ?_, ?_, ?_, ?_, ?_, ?_, ?_, ?_⟩
        · simp only [List.append_assoc, List.singleton_append] at h1
          simp [SendMessageToPlayers_Loop, MessageStream.SendRawProtobuf, hF, hT, h1]
        · simp [SendMessageToPlayers_Loop, MessageStream.SendRawProtobuf, hF, hT, h2]
        · simpa [RawForwards, Event.rawForward?, hF] using h3
        · simpa [Responses, Event.isResponse] using h4
        · simpa [Pushes, Event.push?] using h5
        · simp only [Warnings] at h6
          simp [Warnings, Event.warning?, IsMissingTarget, hF, h6]
        · simp only [Warnings, FailedForwards] at h7
          simp [Warnings, Event.warning?, FailedForwards, Event.isFailedForward, h7]
        · simp only [Warnings, FailedForwards] at h8
          simp [Warnings, Event.warning?, FailedForwards, Event.isFailedForward,
            IsMissingTarget, hF, h8]
        · intro h0
          simp [List.filterMap_cons, hF] at h0
      | false =>
        obtain ⟨es, h1, h2, h3, h4, h5, h6, h7, h8, h9⟩ := ih
          { w with Trace := w.Trace ++ [Event.SendRawProtobuf t.Handle MessageData false,
            Event.Warning (WarningText.FailedRawProtobuf Client.Name t.Name)] }
        refine ⟨Event.SendRawProtobuf t.Handle MessageData false ::
          Event.Warning (WarningText.FailedRawProtobuf Client.Name t.Name) :: es,
          ?_, ?_, ?_, ?_, ?_, ?_, ?_, ?_, ?_⟩
        · simp only [List.append_assoc, List.cons_append, List.nil_append] at h1
          simp [SendMessageToPlayers_Loop, MessageStream.SendRawProtobuf, Warning, hF, hT, h1]
        · simp [SendMessageToPlayers_Loop, MessageStream.SendRawProtobuf, Warning, hF, hT, h2]
        · simpa [RawForwards, Event.rawForward?, hF] using h3
        · simpa [Responses, Event.isResponse] using h4
        · simpa [Pushes, Event.push?] using h5
        · simp only [Warnings] at h6
          simp [Warnings, Event.warning?, WarningText.missingTarget?, IsMissingTarget, hF, h6]
        · simp only [Warnings, FailedForwards] at h7
          simp [Warnings, Event.warning?, WarningText.isFailedForward, FailedForwards,
            Event.isFailedForward, h7]
        · simp only [Warnings, FailedForwards] at h8
          simp [Warnings, Event.warning?, FailedForwards, Event.isFailedForward,
            IsMissingTarget, hF, h8]
          omega
        · intro h0
          simp [List.filterMap_cons, hF] at h0

/-- What one relay call appends to the trace. -/
theorem relay_spec (T : Transport) (G : GameService) (Client : GameClient)
    (Message : Frpg2ReliableUdpMessage) (w : World) :
    ∃ (es : List Event) (ok : Bool),
      Emitted w (Handle_RequestSendMessageToPlayers T G Client Message w).2 =
        es ++ Event.SendResponse Client.Handle
          OutgoingProtobuf.RequestSendMessageToPlayersResponse Message ok ::
          (if ok then [] else [Event.Warning (WarningText.DisconnectingFailedResponse
            Client.Name OutgoingProtobuf.RequestSendMessageToPlayersResponse)]) ∧
      (Handle_RequestSendMessageToPlayers T G Client Message w).1 =
        (if ok then MessageHandleResult.Handled else MessageHandleResult.Error) ∧
      (Handle_RequestSendMessageToPlayers T G Client Message w).2.Database = w.Database ∧
      RawForwards es =
        (Message.Protobuf.player_ids.filterMap G.FindClientByPlayerId).map
          (fun t => (t.Handle, Message.Protobuf.message)) ∧
      Responses es = [] ∧ Pushes es = [] ∧
      (Warnings es).filterMap WarningText.missingTarget? =
        Message.Protobuf.player_ids.filter (IsMissingTarget G) ∧
      ((Warnings es).filter WarningText.isFailedForward).length = FailedForwards es ∧
      (Warnings es).length =
        (Message.Protobuf.player_ids.filter (IsMissingTarget G)).length + FailedForwards es ∧
      (Message.Protobuf.player_ids.filterMap G.FindClientByPlayerId = [] →
        es = Message.Protobuf.player_ids.map (fun id =>
          Event.Warning (WarningText.TargetClientMissing Client.Name id))) := by
  obtain ⟨es, h1, h2, h3, h4, h5, h6, h7, h8, h9⟩ :=
    relayLoop_spec T G Client (Message.Protobuf.message.take Message.Protobuf.message.length)
      Message.Protobuf.player_ids w
  rw [List.take_length] at h1 h2 h3
  refine ⟨es, T (w.Trace ++ es), ?_, ?_, ?_, h3, h4, h5, h6, h7, h8, h9⟩
  · apply emitted_of_trace
    cases hT : T (w.Trace ++ es) <;>
      simp [Handle_RequestSendMessageToPlayers, MessageStream.SendResponse, Warning, h1, hT]
  · cases hT : T (w.Trace ++ es) <;>
      simp [Handle_RequestSendMessageToPlayers, MessageStream.SendResponse, Warning, h1, hT]
  · cases hT : T (w.Trace ++ es) <;>
      simp [Handle_RequestSendMessageToPlayers, MessageStream.SendResponse, Warning, h1, h2, hT]

theorem upload_contract :
    UnsupportedRequestContract Handle_RequestMeasureUploadBandwidth
      OutgoingProtobuf.RequestMeasureUploadBandwidthResponse := by
  intro T G Client Message w
  refine ⟨T (w.Trace ++ [Event.EnsureFailed]), ?_⟩
  cases hT : T (w.Trace ++ [Event.EnsureFailed]) <;>
    simp [Handle_RequestMeasureUploadBandwidth, Ensure, MessageStream.SendResponse, Warning,
      Emitted, StreamWrites, Pushes, RawForwards, Event.isStreamWrite, Event.push?,
      Event.rawForward?, hT]

theorem download_contract :
    UnsupportedRequestContract Handle_RequestMeasureDownloadBandwidth
      OutgoingProtobuf.RequestMeasureDownloadBandwidthResponse := by
  intro T G Client Message w
  refine ⟨T (w.Trace ++ [Event.EnsureFailed]), ?_⟩
  cases hT : T (w.Trace ++ [Event.EnsureFailed]) <;>
    simp [Handle_RequestMeasureDownloadBandwidth, Ensure, MessageStream.SendResponse, Warning,
      Emitted, StreamWrites, Pushes, RawForwards, Event.isStreamWrite, Event.push?,
      Event.rawForward?, hT]

theorem shop_contract :
    UnsupportedRequestContract Handle_RequestGetOnlineShopItemList
      OutgoingProtobuf.RequestGetOnlineShopItemListResponse := by
  intro T G Client Message w
  refine ⟨T (w.Trace ++ [Event.EnsureFailed]), ?_⟩
  cases hT : T (w.Trace ++ [Event.EnsureFailed]) <;>
    simp [Handle_RequestGetOnlineShopItemList, Ensure, MessageStream.SendResponse, Warning,
      Emitted, StreamWrites, Pushes, RawForwards, Event.isStreamWrite, Event.push?,
      Event.rawForward?, hT]

theorem benchmark_contract :
    UnsupportedRequestContract Handle_RequestBenchmarkThroughput
      OutgoingProtobuf.RequestBenchmarkThroughputResponse := by
  intro T G Client Message w
  refine ⟨T (w.Trace ++ [Event.EnsureFailed]), ?_⟩
  cases hT : T (w.Trace ++ [Event.EnsureFailed]) <;>
    simp [Handle_RequestBenchmarkThroughput, Ensure, MessageStream.SendResponse, Warning,
      Emitted, StreamWrites, Pushes, RawForwards, Event.isStreamWrite, Event.push?,
      Event.rawForward?, hT]

theorem contract_ne_unhandled {H : Handler} {R : OutgoingProtobuf}
    (hc : UnsupportedRequestContract H R) (T : Transport) (G : GameService)
    (Client : GameClient) (Message : Frpg2ReliableUdpMessage) (w : World) :
    (H T G Client Message w).1 ≠ MessageHandleResult.Unhandled := by
  obtain ⟨ok, -, -, -, -, h1, h2⟩ := hc T G Client Message w
  cases ok
  · rw [h1.mpr rfl]; decide
  · rw [h2.mpr rfl]; decide

theorem ringBell_ne_unhandled (T : Transport) (G : GameService) (Client : GameClient)
    (Message : Frpg2ReliableUdpMessage) (w : World) :
    (Handle_RequestNotifyRingBell T G Client Message w).1 ≠ MessageHandleResult.Unhandled := by
  obtain ⟨es, ok, -, h, -⟩ := ringBell_spec T G Client Message w
  rw [h]; cases ok <;> decide

theorem relay_ne_unhandled (T : Transport) (G : GameService) (Client : GameClient)
    (Message : Frpg2ReliableUdpMessage) (w : World) :
    (Handle_RequestSendMessageToPlayers T G Client Message w).1
      ≠ MessageHandleResult.Unhandled := by
  obtain ⟨es, ok, -, h, -⟩ := relay_spec T G Client Message w
  rw [h]; cases ok <;> decide

theorem onMessageRecieved_eq_dispatch (T : Transport) (G : GameService)
    (Client : GameClient) (Message : Frpg2ReliableUdpMessage) (w : World) :
    OnMessageRecieved T G Client Message w = Dispatch T G Client Message w := by
  unfold OnMessageRecieved Dispatch
  cases h : Message.Header.msg_type <;> simp [RegisteredHandler]

/-! ## The scenarios of section 8, evaluated -/

/-- Ring scenario: S1 (in the allow-list) rings with payload 0xAB while S2 stands
elsewhere. S1 gets the one push, S2 nothing, both counters go from 0 to 1 and S1 gets
the empty acknowledgment. -/
theorem scenario_ring_bell :
    (Handle_RequestNotifyRingBell AllSucceed Registry12 S1 RingAB World0).1 =
      MessageHandleResult.Handled ∧
    (Handle_RequestNotifyRingBell AllSucceed Registry12 S1 RingAB World0).2.Trace =
      [Event.Send 1 (OutgoingProtobuf.PushRequestNotifyRingBell
          { push_message_id := PushID.PushID_PushRequestNotifyRingBell
            player_id := 7, online_area_id := 5, data := [0xAB] }) true,
        Event.SendResponse 1 OutgoingProtobuf.RequestNotifyRingBellResponse RingAB true] ∧
    (Handle_RequestNotifyRingBell AllSucceed Registry12 S1 RingAB
      World0).2.Database.GlobalStatistics "Bell/TotalBellRings" = 1 ∧
    (Handle_RequestNotifyRingBell AllSucceed Registry12 S1 RingAB
      World0).2.Database.PlayerStatistics "Bell/TotalBellRings" 7 = 1 := by
  decide

/-- Relay scenario: S2 relays three bytes to players 7 and 8; player 7 (S1) is
connected, player 8 is not. The stream of S1 gets the bytes once, one warning is logged
for player 8, and S2 gets the empty acknowledgment. -/
theorem scenario_relay :
    (Handle_RequestSendMessageToPlayers AllSucceed Registry12 S2 Relay78 World0).1 =
      MessageHandleResult.Handled ∧
    (Handle_RequestSendMessageToPlayers AllSucceed Registry12 S2 Relay78 World0).2.Trace =
      [Event.SendRawProtobuf 1 [1, 2, 3] true,
        Event.Warning (WarningText.TargetClientMissing "S2" 8),
        Event.SendResponse 2 OutgoingProtobuf.RequestSendMessageToPlayersResponse
          Relay78 true] := by
  decide

/-! ## The claims -/

/-- C1: with the registry a set of sessions and the requester one of them, the
ring-bell handler attempts a push on exactly the sessions whose current area is in the
allow-list: the streams pushed to are, in registry order, those of the registered
sessions standing in one of the eight Archdragon Peak areas; each such session gets
exactly one push attempt and every other session none, whatever the transport does;
the requester is a recipient exactly when its own area is in the allow-list. -/
theorem C1_ring_bell_push_recipients (T : Transport) (G : GameService)
    (Client : GameClient) (Message : Frpg2ReliableUdpMessage) (w : World)
    (hset : (G.Clients.map GameClient.Handle).Nodup) (hreq : Client ∈ G.Clients) :
    PushStreams (Emitted w (Handle_RequestNotifyRingBell T G Client Message w).2) =
      (G.Clients.filter
        (fun c => decide (c.PlayerState.CurrentArea ∈ NotifyLocations))).map
          GameClient.Handle ∧
    (∀ c ∈ G.Clients, c.PlayerState.CurrentArea ∈ NotifyLocations →
      (PushStreams (Emitted w
        (Handle_RequestNotifyRingBell T G Client Message w).2)).count c.Handle = 1) ∧
    (∀ c ∈ G.Clients, c.PlayerState.CurrentArea ∉ NotifyLocations →
      (PushStreams (Emitted w
        (Handle_RequestNotifyRingBell T G Client Message w).2)).count c.Handle = 0) ∧
    (Client.Handle ∈ PushStreams (Emitted w
        (Handle_RequestNotifyRingBell T G Client Message w).2) ↔
      Client.PlayerState.CurrentArea ∈ NotifyLocations) := by
  rw [ringBell_pushStreams]
  refine ⟨?_, ?_, ?_, ?_⟩
  · congr 1
    apply List.filter_congr
    intro c _
    rw [Bool.eq_iff_iff, inNotifyLocations_iff]
    simp
  · intro c hc ha
    exact count_handle_filter_of_pos _ _ hset c hc ((inNotifyLocations_iff c).mpr ha)
  · intro c hc ha
    apply List.count_eq_zero_of_not_mem
    exact handle_not_mem_filter_of_neg _ _ hset c hc
      (fun h => ha ((inNotifyLocations_iff c).mp h))
  · constructor
    · intro hmem
      by_contra ha
      exact handle_not_mem_filter_of_neg _ _ hset Client hreq
        (fun h => ha ((inNotifyLocations_iff Client).mp h)) hmem
    · intro ha
      exact List.mem_map_of_mem _
        (List.mem_filter.mpr ⟨hreq, (inNotifyLocations_iff Client).mpr ha⟩)

/-- Witness of C1: the scenario of the spec. S1 stands in Archdragon Peak, S2 does
not, S1 rings; the only push goes to the stream of S1. -/
theorem C1_ring_bell_push_recipients_witness :
    (Registry12.Clients.map GameClient.Handle).Nodup ∧ S1 ∈ Registry12.Clients ∧
    PushStreams (Emitted World0
      (Handle_RequestNotifyRingBell AllSucceed Registry12 S1 RingAB World0).2) = [1] ∧
    (PushStreams (Emitted World0
      (Handle_RequestNotifyRingBell AllSucceed Registry12 S1 RingAB World0).2)).count
        S2.Handle = 0 :=
  ⟨by decide, by decide,
    (C1_ring_bell_push_recipients AllSucceed Registry12 S1 RingAB World0
      (by decide) (by decide)).1.trans (by decide),
    (C1_ring_bell_push_recipients AllSucceed Registry12 S1 RingAB World0
      (by decide) (by decide)).2.2.1 S2 (by decide) (by decide)⟩

/-- C2: one ring-bell call adds exactly 1 to the global statistic Bell/TotalBellRings
and exactly 1 to the statistic of that name of the requesting player, whatever the
registry holds (so for any number of targets, zero included) and whatever the
transport does (so for every mix of push outcomes and also when the acknowledgment
fails); the database after the call is the database before with these two additions
and nothing else. -/
theorem C2_ring_bell_statistics (T : Transport) (G : GameService) (Client : GameClient)
    (Message : Frpg2ReliableUdpMessage) (w : World) :
    (Handle_RequestNotifyRingBell T G Client Message w).2.Database.GlobalStatistics
        "Bell/TotalBellRings" = w.Database.GlobalStatistics "Bell/TotalBellRings" + 1 ∧
    (Handle_RequestNotifyRingBell T G Client Message w).2.Database.PlayerStatistics
        "Bell/TotalBellRings" Client.PlayerState.PlayerId =
      w.Database.PlayerStatistics "Bell/TotalBellRings" Client.PlayerState.PlayerId + 1 ∧
    (Handle_RequestNotifyRingBell T G Client Message w).2.Database =
      (w.Database.AddGlobalStatistic "Bell/TotalBellRings" 1).AddPlayerStatistic
        "Bell/TotalBellRings" Client.PlayerState.PlayerId 1 := by
  obtain ⟨es, ok, -, -, h, -⟩ := ringBell_spec T G Client Message w
  rw [h]
  simp [ServerDatabase.AddGlobalStatistic, ServerDatabase.AddPlayerStatistic]

/-- C3: one ring-bell call makes exactly one correlated response send: the empty
RequestNotifyRingBellResponse, on the stream of the requester, paired with the request.
The call returns Error exactly when that send failed and Handled exactly when it
succeeded, so the outcomes of the pushes have no say in the result or in the number
of acknowledgments. -/
theorem C3_ring_bell_acknowledgment (T : Transport) (G : GameService)
    (Client : GameClient) (Message : Frpg2ReliableUdpMessage) (w : World) :
    ∃ ok : Bool,
      Responses (Emitted w (Handle_RequestNotifyRingBell T G Client Message w).2) =
        [Event.SendResponse Client.Handle OutgoingProtobuf.RequestNotifyRingBellResponse
          Message ok] ∧
      ((Handle_RequestNotifyRingBell T G Client Message w).1 = MessageHandleResult.Error ↔
        ok = false) ∧
      ((Handle_RequestNotifyRingBell T G Client Message w).1 = MessageHandleResult.Handled ↔
        ok = true) := by
  obtain ⟨es, ok, h1, h2, -, -, h4, -⟩ := ringBell_spec T G Client Message w
  refine ⟨ok, ?_, ?_, ?_⟩
  · rw [h1, responses_append, h4]
    cases ok <;> simp [Responses, Event.isResponse]
  · rw [h2]; cases ok <;> simp
  · rw [h2]; cases ok <;> simp

/-- C4: one relay call makes its raw forwards to exactly the target entries that name
a connected player, in list order: one forward per such entry, to the session found
for the player identifier of the entry, carrying the message bytes of the request
unchanged; an entry that names no connected player gets none. The number of forwards
is the number M of entries that name a connected player, at most the length N of the
list. -/
theorem C4_relay_forwards (T : Transport) (G : GameService) (Client : GameClient)
    (Message : Frpg2ReliableUdpMessage) (w : World) :
    RawForwards (Emitted w (Handle_RequestSendMessageToPlayers T G Client Message w).2) =
      (Message.Protobuf.player_ids.filterMap G.FindClientByPlayerId).map
        (fun t => (t.Handle, Message.Protobuf.message)) ∧
    (RawForwards (Emitted w
        (Handle_RequestSendMessageToPlayers T G Client Message w).2)).length =
      (Message.Protobuf.player_ids.filter
        (fun id => (G.FindClientByPlayerId id).isSome)).length ∧
    (RawForwards (Emitted w
        (Handle_RequestSendMessageToPlayers T G Client Message w).2)).length ≤
      Message.Protobuf.player_ids.length := by
  obtain ⟨es, ok, h1, -, -, h3, -⟩ := relay_spec T G Client Message w
  have hraw : RawForwards (Emitted w
      (Handle_RequestSendMessageToPlayers T G Client Message w).2) =
      (Message.Protobuf.player_ids.filterMap G.FindClientByPlayerId).map
        (fun t => (t.Handle, Message.Protobuf.message)) := by
    rw [h1, rawForwards_append, h3]
    cases ok <;> simp [RawForwards, Event.rawForward?]
  have hlen : ∀ ids : List Nat, (ids.filterMap G.FindClientByPlayerId).length =
      (ids.filter (fun id => (G.FindClientByPlayerId id).isSome)).length := by
    intro ids
    induction ids with
    | nil => rfl
    | cons a t ih => cases h : G.FindClientByPlayerId a <;> simp [List.filterMap_cons, h, ih]
  refine ⟨hraw, ?_, ?_⟩
  · rw [hraw, List.length_map, hlen]
  · rw [hraw, List.length_map, hlen]
    exact List.length_filter_le _ _

/-- C5, as amended: one relay call first processes the whole target list and then makes
exactly one correlated response send, the empty RequestSendMessageToPlayersResponse on
the stream of the requester; it returns Error exactly when that send failed and
Handled exactly when it succeeded. It logs one missing-target warning per entry that
names no connected player (in list order), one warning per failed forward, and one
further warning when the acknowledgment send failed, and no other. A request naming
zero connected targets forwards nothing and logs the missing-target warnings, followed
by the disconnect warning only when the acknowledgment send failed. -/
theorem C5_relay_acknowledgment_and_warnings (T : Transport) (G : GameService)
    (Client : GameClient) (Message : Frpg2ReliableUdpMessage) (w : World) :
    ∃ (es : List Event) (ok : Bool),
      Emitted w (Handle_RequestSendMessageToPlayers T G Client Message w).2 =
        es ++ Event.SendResponse Client.Handle
          OutgoingProtobuf.RequestSendMessageToPlayersResponse Message ok ::
          (if ok then [] else [Event.Warning (WarningText.DisconnectingFailedResponse
            Client.Name OutgoingProtobuf.RequestSendMessageToPlayersResponse)]) ∧
      RawForwards es =
        (Message.Protobuf.player_ids.filterMap G.FindClientByPlayerId).map
          (fun t => (t.Handle, Message.Protobuf.message)) ∧
      (Warnings es).filterMap WarningText.missingTarget? =
        Message.Protobuf.player_ids.filter (IsMissingTarget G) ∧
      Responses (Emitted w (Handle_RequestSendMessageToPlayers T G Client Message w).2) =
        [Event.SendResponse Client.Handle
          OutgoingProtobuf.RequestSendMessageToPlayersResponse Message ok] ∧
      ((Handle_RequestSendMessageToPlayers T G Client Message w).1
        = MessageHandleResult.Error ↔ ok = false) ∧
      ((Handle_RequestSendMessageToPlayers T G Client Message w).1
        = MessageHandleResult.Handled ↔ ok = true) ∧
      (Warnings (Emitted w
          (Handle_RequestSendMessageToPlayers T G Client Message w).2)).filterMap
          WarningText.missingTarget? =
        Message.Protobuf.player_ids.filter (IsMissingTarget G) ∧
      ((Warnings (Emitted w
          (Handle_RequestSendMessageToPlayers T G Client Message w).2)).filter
          WarningText.isFailedForward).length =
        FailedForwards (Emitted w
          (Handle_RequestSendMessageToPlayers T G Client Message w).2) ∧
      (Warnings (Emitted w
          (Handle_RequestSendMessageToPlayers T G Client Message w).2)).length =
        (Message.Protobuf.player_ids.filter (IsMissingTarget G)).length +
          FailedForwards (Emitted w
            (Handle_RequestSendMessageToPlayers T G Client Message w).2) +
          (if ok then 0 else 1) ∧
      (Message.Protobuf.player_ids.filterMap G.FindClientByPlayerId = [] →
        RawForwards (Emitted w
          (Handle_RequestSendMessageToPlayers T G Client Message w).2) = [] ∧
        Warnings (Emitted w
          (Handle_RequestSendMessageToPlayers T G Client Message w).2) =
          Message.Protobuf.player_ids.map (WarningText.TargetClientMissing Client.Name) ++
            (if ok then [] else [WarningText.DisconnectingFailedResponse
              Client.Name OutgoingProtobuf.RequestSendMessageToPlayersResponse])) := by
  obtain ⟨es, ok, h1, h2, -, h3, h4, -, h6, h7, h8, h9⟩ := relay_spec T G Client Message w
  refine ⟨es, ok, h1, h3, h6, ?_, ?_, ?_, ?_, ?_, ?_, ?_⟩
  · rw [h1, responses_append, h4]
    cases ok <;> simp [Responses, Event.isResponse]
  · rw [h2]; cases ok <;> simp
  · rw [h2]; cases ok <;> simp
  · rw [h1, warnings_append, List.filterMap_append, h6]
    cases ok <;> simp [Warnings, Event.warning?, WarningText.missingTarget?]
  · rw [h1, warnings_append, failedForwards_append, List.filter_append, List.length_append, h7]
    cases ok <;>
      simp [Warnings, Event.warning?, WarningText.isFailedForward, FailedForwards,
        Event.isFailedForward]
  · rw [h1, warnings_append, failedForwards_append, List.length_append, h8]
    cases ok <;>
      simp [Warnings, Event.warning?, FailedForwards, Event.isFailedForward]
  · intro h0
    constructor
    · rw [h1, rawForwards_append, h3, h0]
      cases ok <;> simp [RawForwards, Event.rawForward?]
    · rw [h1, warnings_append, h9 h0, warnings_missing]
      cases ok <;> simp [Warnings, Event.warning?]

/-- Witness of C5: player 8 is not connected and every write succeeds; nothing is
forwarded and the one warning is the missing-target warning for player 8. -/
theorem C5_relay_acknowledgment_and_warnings_witness :
    Relay8.Protobuf.player_ids.filterMap Registry12.FindClientByPlayerId = [] ∧
    RawForwards (Emitted World0
      (Handle_RequestSendMessageToPlayers AllSucceed Registry12 S1 Relay8 World0).2) = [] ∧
    Warnings (Emitted World0
      (Handle_RequestSendMessageToPlayers AllSucceed Registry12 S1 Relay8 World0).2) =
      [WarningText.TargetClientMissing "S1" 8] := by
  obtain ⟨es, ok, -, -, -, -, -, hok, -, -, -, hzero⟩ :=
    C5_relay_acknowledgment_and_warnings AllSucceed Registry12 S1 Relay8 World0
  have hT : ok = true := hok.mp (by decide)
  subst hT
  exact ⟨by decide, (hzero (by decide)).1, (hzero (by decide)).2.trans (by decide)⟩

/-- Counterexample to C5 as stated: player 8 is not connected and every write fails.
The request names zero connected targets, nothing is forwarded, yet two warnings are
logged, the missing-target warning and the disconnect warning; so the warnings are
not only the missing-target ones and their number is not the number of missing
targets plus the number of failed forwards. -/
theorem C5_relay_warnings_counterexample :
    Relay8.Protobuf.player_ids.filterMap Registry12.FindClientByPlayerId = [] ∧
    RawForwards (Emitted World0
      (Handle_RequestSendMessageToPlayers AllFail Registry12 S1 Relay8 World0).2) = [] ∧
    Warnings (Emitted World0
      (Handle_RequestSendMessageToPlayers AllFail Registry12 S1 Relay8 World0).2) =
      [WarningText.TargetClientMissing "S1" 8,
        WarningText.DisconnectingFailedResponse "S1"
          OutgoingProtobuf.RequestSendMessageToPlayersResponse] ∧
    ¬ ((Warnings (Emitted World0
        (Handle_RequestSendMessageToPlayers AllFail Registry12 S1 Relay8 World0).2)).length =
      (Relay8.Protobuf.player_ids.filter (IsMissingTarget Registry12)).length +
        FailedForwards (Emitted World0
          (Handle_RequestSendMessageToPlayers AllFail Registry12 S1 Relay8 World0).2)) := by
  decide

/-- C6: each of the four handlers of an unsupported request type (measure upload
bandwidth, measure download bandwidth, online shop item list, benchmark throughput)
returns for every request and every transport, writes to a stream exactly once (its
empty response, on the stream of the requester, correlated with the request), pushes
and forwards nothing, changes no statistic, and returns Error exactly when that write
failed and Handled exactly when it succeeded. -/
theorem C6_unsupported_requests :
    UnsupportedRequestContract Handle_RequestMeasureUploadBandwidth
      OutgoingProtobuf.RequestMeasureUploadBandwidthResponse ∧
    UnsupportedRequestContract Handle_RequestMeasureDownloadBandwidth
      OutgoingProtobuf.RequestMeasureDownloadBandwidthResponse ∧
    UnsupportedRequestContract Handle_RequestGetOnlineShopItemList
      OutgoingProtobuf.RequestGetOnlineShopItemListResponse ∧
    UnsupportedRequestContract Handle_RequestBenchmarkThroughput
      OutgoingProtobuf.RequestBenchmarkThroughputResponse :=
  ⟨upload_contract, download_contract, shop_contract, benchmark_contract⟩

/-- C7: for a message whose declared type is none of the six this module handles,
the dispatcher returns Unhandled and the world after is the world before: nothing is
written to any stream, no statistic changes, nothing is logged. -/
theorem C7_unhandled_no_effect (T : Transport) (G : GameService) (Client : GameClient)
    (Message : Frpg2ReliableUdpMessage) (w : World)
    (h1 : Message.Header.msg_type ≠ Frpg2ReliableUdpMessageType.RequestNotifyRingBell)
    (h2 : Message.Header.msg_type ≠ Frpg2ReliableUdpMessageType.RequestSendMessageToPlayers)
    (h3 : Message.Header.msg_type ≠ Frpg2ReliableUdpMessageType.RequestMeasureUploadBandwidth)
    (h4 : Message.Header.msg_type
      ≠ Frpg2ReliableUdpMessageType.RequestMeasureDownloadBandwidth)
    (h5 : Message.Header.msg_type ≠ Frpg2ReliableUdpMessageType.RequestGetOnlineShopItemList)
    (h6 : Message.Header.msg_type ≠ Frpg2ReliableUdpMessageType.RequestBenchmarkThroughput) :
    OnMessageRecieved T G Client Message w = (MessageHandleResult.Unhandled, w) ∧
    Emitted w (OnMessageRecieved T G Client Message w).2 = [] := by
  have h : OnMessageRecieved T G Client Message w = (MessageHandleResult.Unhandled, w) := by
    simp [OnMessageRecieved, h1, h2, h3, h4, h5, h6]
  exact ⟨h, by simp [h, Emitted]⟩

/-- Witness of C7: a message of foreign type 42. -/
theorem C7_unhandled_no_effect_witness :
    OnMessageRecieved AllFail Registry12 S1 Foreign World0
      = (MessageHandleResult.Unhandled, World0) :=
  (C7_unhandled_no_effect AllFail Registry12 S1 Foreign World0
    (by decide) (by decide) (by decide) (by decide) (by decide) (by decide)).1

/-- C8: for a message whose declared type is one of the six handled types, the
dispatcher is exactly the handler of that type: same result, same world after. It
agrees with the table dispatcher of section 4.1 and never returns Unhandled. -/
theorem C8_dispatch_handled (T : Transport) (G : GameService) (Client : GameClient)
    (Message : Frpg2ReliableUdpMessage) (w : World)
    (hty : Message.Header.msg_type ∈
      [Frpg2ReliableUdpMessageType.RequestNotifyRingBell,
       Frpg2ReliableUdpMessageType.RequestSendMessageToPlayers,
       Frpg2ReliableUdpMessageType.RequestMeasureUploadBandwidth,
       Frpg2ReliableUdpMessageType.RequestMeasureDownloadBandwidth,
       Frpg2ReliableUdpMessageType.RequestGetOnlineShopItemList,
       Frpg2ReliableUdpMessageType.RequestBenchmarkThroughput]) :
    (Message.Header.msg_type = Frpg2ReliableUdpMessageType.RequestNotifyRingBell →
      OnMessageRecieved T G Client Message w =
        Handle_RequestNotifyRingBell T G Client Message w) ∧
    (Message.Header.msg_type = Frpg2ReliableUdpMessageType.RequestSendMessageToPlayers →
      OnMessageRecieved T G Client Message w =
        Handle_RequestSendMessageToPlayers T G Client Message w) ∧
    (Message.Header.msg_type = Frpg2ReliableUdpMessageType.RequestMeasureUploadBandwidth →
      OnMessageRecieved T G Client Message w =
        Handle_RequestMeasureUploadBandwidth T G Client Message w) ∧
    (Message.Header.msg_type = Frpg2ReliableUdpMessageType.RequestMeasureDownloadBandwidth →
      OnMessageRecieved T G Client Message w =
        Handle_RequestMeasureDownloadBandwidth T G Client Message w) ∧
    (Message.Header.msg_type = Frpg2ReliableUdpMessageType.RequestGetOnlineShopItemList →
      OnMessageRecieved T G Client Message w =
        Handle_RequestGetOnlineShopItemList T G Client Message w) ∧
    (Message.Header.msg_type = Frpg2ReliableUdpMessageType.RequestBenchmarkThroughput →
      OnMessageRecieved T G Client Message w =
        Handle_RequestBenchmarkThroughput T G Client Message w) ∧
    OnMessageRecieved T G Client Message w = Dispatch T G Client Message w ∧
    (RegisteredHandler Message.Header.msg_type).isSome = true ∧
    (OnMessageRecieved T G Client Message w).1 ≠ MessageHandleResult.Unhandled := by
  refine ⟨?_, ?_, ?_, ?_, ?_, ?_, onMessageRecieved_eq_dispatch T G Client Message w, ?_, ?_⟩
  · intro h; simp [OnMessageRecieved, h]
  · intro h; simp [OnMessageRecieved, h]
  · intro h; simp [OnMessageRecieved, h]
  · intro h; simp [OnMessageRecieved, h]
  · intro h; simp [OnMessageRecieved, h]
  · intro h; simp [OnMessageRecieved, h]
  · simp only [List.mem_cons, List.mem_singleton, List.not_mem_nil, or_false] at hty
    rcases hty with h | h | h | h | h | h <;> simp [h, RegisteredHandler]
  · simp only [List.mem_cons, List.mem_singleton, List.not_mem_nil, or_false] at hty
    rcases hty with h | h | h | h | h | h
    · simpa [OnMessageRecieved, h] using ringBell_ne_unhandled T G Client Message w
    · simpa [OnMessageRecieved, h] using relay_ne_unhandled T G Client Message w
    · simpa [OnMessageRecieved, h] using
        contract_ne_unhandled upload_contract T G Client Message w
    · simpa [OnMessageRecieved, h] using
        contract_ne_unhandled download_contract T G Client Message w
    · simpa [OnMessageRecieved, h] using
        contract_ne_unhandled shop_contract T G Client Message w
    · simpa [OnMessageRecieved, h] using
        contract_ne_unhandled benchmark_contract T G Client Message w

/-- Witness of C8: a ring-bell message is dispatched to the ring-bell handler. -/
theorem C8_dispatch_handled_witness :
    OnMessageRecieved AllSucceed Registry12 S1 RingAB World0 =
      Handle_RequestNotifyRingBell AllSucceed Registry12 S1 RingAB World0 ∧
    (OnMessageRecieved AllSucceed Registry12 S1 RingAB World0).1
      ≠ MessageHandleResult.Unhandled :=
  ⟨(C8_dispatch_handled AllSucceed Registry12 S1 RingAB World0 (by decide)).1 (by decide),
    (C8_dispatch_handled AllSucceed Registry12 S1 RingAB World0
      (by decide)).2.2.2.2.2.2.2.2⟩

/-- C9: every push of one ring-bell call carries the ring-notification push
identifier, the player identifier of the requester, the area identifier declared in
the request and the data blob of the request, byte for byte; the pushes, one per
target in registry order, are therefore all the same message. -/
theorem C9_ring_bell_push_contents (T : Transport) (G : GameService)
    (Client : GameClient) (Message : Frpg2ReliableUdpMessage) (w : World) :
    Pushes (Emitted w (Handle_RequestNotifyRingBell T G Client Message w).2) =
      (G.FindClients InNotifyLocations).map (fun OtherClient =>
        (OtherClient.Handle, OutgoingProtobuf.PushRequestNotifyRingBell
          { push_message_id := PushID.PushID_PushRequestNotifyRingBell
            player_id := Client.PlayerState.PlayerId
            online_area_id := Message.Protobuf.online_area_id
            data := Message.Protobuf.data })) ∧
    (Pushes (Emitted w (Handle_RequestNotifyRingBell T G Client Message w).2)).map Prod.snd =
      List.replicate (G.FindClients InNotifyLocations).length
        (OutgoingProtobuf.PushRequestNotifyRingBell
          { push_message_id := PushID.PushID_PushRequestNotifyRingBell
            player_id := Client.PlayerState.PlayerId
            online_area_id := Message.Protobuf.online_area_id
            data := Message.Protobuf.data }) ∧
    (BuildPushMessage Client Message).data.length = Message.Protobuf.data.length := by
  rw [ringBell_pushes]
  refine ⟨?_, ?_, ?_⟩
  · simp [GameService.FindClients, BuildPushMessage]
  · simp [GameService.FindClients, BuildPushMessage, Function.comp_def]
  · simp [BuildPushMessage]

/-- C10: the recipients of the pushes depend only on the registry. Two ring-bell calls
against the same registry push to the same streams in the same order, whatever the
two requesters, the two requests (declared area, data), the two transports and the
two worlds before. -/
theorem C10_ring_bell_recipients_depend_on_registry_only (G : GameService)
    (T1 T2 : Transport) (Client1 Client2 : GameClient)
    (Message1 Message2 : Frpg2ReliableUdpMessage) (w1 w2 : World) :
    PushStreams (Emitted w1 (Handle_RequestNotifyRingBell T1 G Client1 Message1 w1).2) =
      PushStreams (Emitted w2 (Handle_RequestNotifyRingBell T2 G Client2 Message2 w2).2) := by
  rw [ringBell_pushStreams, ringBell_pushStreams]

end DS3OS
